import Mathlib

/-!
Verification of the wordle game-session orchestrator
(`game-session/src/lib.rs` and `game-session/io/src/lib.rs`).

The Rust program is a Gear actor.  We embed it shallowly:

* `ActorId` and `MessageId` are modelled as `Nat` (they are opaque
  identifiers in the source; only equality is used).
* the `HashMap<ActorId, SessionInfo>` session store is modelled as a
  function `ActorId → Option SessionInfo`.
* `handle` runs one inbound message to completion; a Rust `panic!` /
  `expect` aborts the execution and the Gear runtime reverts all state
  changes, so `handle` returns `Except String HandleResult`: an `error`
  carries the panic message and leaves the state untouched.
* outbound effects (`msg::send`, `msg::reply`, `msg::send_delayed`) are
  collected in an output list; `exec::wait()` is the `waited` flag;
  `exec::wake` in `handle_reply` returns the woken message id.
* the environment of one execution (`msg::source()`, `msg::id()`,
  `exec::program_id()`, and the message id the runtime assigns to the
  outbound send to the wordle program) is the record `MsgCtx`.
* Rust's `char::is_lowercase` (the Unicode `Lowercase` property, from
  the Rust standard library, not this repository) is a parameter
  `isLow : Char → Bool` of `validate_word` and everything above it;
  `str::len` is the UTF-8 byte length, `(·.map Char.utf8Size).sum`.
* `tries` is a `u8`; its only arithmetic is `increment_tries`, modelled
  with an explicit `% 256`.
-/

abbrev ActorId := Nat
abbrev MessageId := Nat

/-- `GameStatus` from `io/src/lib.rs`. -/
inductive GameStatus
  | Win
  | Lose
deriving DecidableEq, Repr

/-- `WordleEvent` from `io/src/lib.rs`: replies of the wordle program.
`Vec<u8>` entries are modelled as `Nat` (only compared with `< 5`). -/
inductive WordleEvent
  | GameStarted (user : ActorId)
  | WordChecked (user : ActorId) (correct_positions : List Nat)
      (contained_in_word : List Nat)
deriving DecidableEq, Repr

/-- `WordleEvent::get_user`. -/
def WordleEvent.get_user : WordleEvent → ActorId
  | .GameStarted user => user
  | .WordChecked user _ _ => user

/-- `WordleEvent::has_guessed`:
`correct_positions.len() == 5 && correct_positions.iter().all(|&pos| pos < 5)`
on `WordChecked`, `false` on `GameStarted`. -/
def WordleEvent.has_guessed : WordleEvent → Bool
  | .WordChecked _ correct_positions _ =>
      correct_positions.length == 5 && correct_positions.all (fun pos => pos < 5)
  | _ => false

/-- `GameSessionEvent` from `io/src/lib.rs` (replies of the orchestrator).
The two `#[codec(skip)]` fields `positions` and `contains` are kept. -/
inductive GameSessionEvent
  | StartSuccess
  | CheckWordResult (correct_positions contained_in_word positions contains : List Nat)
  | GameOver (status : GameStatus)
deriving DecidableEq, Repr

/-- `GameSessionEvent::game_over`. -/
def GameSessionEvent.game_over (status : GameStatus) : GameSessionEvent :=
  .GameOver status

/-- `impl From<&WordleEvent> for GameSessionEvent`. -/
def GameSessionEvent.ofWordleEvent : WordleEvent → GameSessionEvent
  | .GameStarted _ => .StartSuccess
  | .WordChecked _ correct_positions contained_in_word =>
      .CheckWordResult correct_positions contained_in_word
        correct_positions contained_in_word

/-- `SessionStatus` from `io/src/lib.rs`. -/
inductive SessionStatus
  | Init
  | InProgress
  | ReplyReceived (ev : WordleEvent)
  | GameOver (status : GameStatus)
deriving DecidableEq, Repr

/-- `SessionStatus::is_active`. -/
def SessionStatus.is_active : SessionStatus → Bool
  | .InProgress => true
  | .ReplyReceived _ => true
  | _ => false

/-- `SessionInfo` from `io/src/lib.rs`. -/
structure SessionInfo where
  session_id : MessageId
  original_msg_id : MessageId
  send_to_wordle_msg_id : MessageId
  tries : Nat
  session_status : SessionStatus
deriving DecidableEq, Repr

/-- `Default` for `SessionInfo` (all-zero ids, zero tries, `Init` status),
as produced by `HashMap::entry(..).or_default()`. -/
def SessionInfo.default : SessionInfo :=
  ⟨0, 0, 0, 0, .Init⟩

/-- `SessionInfo::update_message_ids`. -/
def SessionInfo.update_message_ids (si : SessionInfo)
    (original send_to_wordle : MessageId) : SessionInfo :=
  { si with original_msg_id := original, send_to_wordle_msg_id := send_to_wordle }

/-- `SessionInfo::is_wait_reply_status`: status is `InProgress`. -/
def SessionInfo.is_wait_reply_status (si : SessionInfo) : Bool :=
  match si.session_status with
  | .InProgress => true
  | _ => false

/-- `SessionInfo::is_game_over`. -/
def SessionInfo.is_game_over (si : SessionInfo) : Bool :=
  match si.session_status with
  | .GameOver _ => true
  | _ => false

/-- `SessionInfo::is_init`. -/
def SessionInfo.is_init (si : SessionInfo) : Bool :=
  match si.session_status with
  | .Init => true
  | _ => false

/-- `SessionInfo::can_start_new_game`: `is_init() || is_game_over()`. -/
def SessionInfo.can_start_new_game (si : SessionInfo) : Bool :=
  si.is_init || si.is_game_over

/-- `SessionInfo::increment_tries`: `self.tries += 1; self.tries` on a `u8`,
so with wrap-around modulo `2^8`. -/
def SessionInfo.increment_tries (si : SessionInfo) : SessionInfo × Nat :=
  let tries := (si.tries + 1) % 256
  ({ si with tries := tries }, tries)

/-- `GameSessionAction` from `io/src/lib.rs`: inbound messages.
Rust `String` is modelled as `List Char`. -/
inductive GameSessionAction
  | StartGame
  | CheckWord (word : List Char)
  | CheckGameStatus (user : ActorId) (session_id : MessageId)
deriving DecidableEq, Repr

/-- `WordleAction` from `io/src/lib.rs`: requests to the wordle program. -/
inductive WordleAction
  | StartGame (user : ActorId)
  | CheckWord (user : ActorId) (word : List Char)
deriving DecidableEq, Repr

/-- `WordleAction::new_start_game`. -/
def WordleAction.new_start_game (user : ActorId) : WordleAction :=
  .StartGame user

/-- `WordleAction::new_check_word`. -/
def WordleAction.new_check_word (user : ActorId) (word : List Char) : WordleAction :=
  .CheckWord user word

/-- `GameSession` from `io/src/lib.rs`; the `HashMap` is a partial map. -/
structure GameSession where
  wordle_program_id : ActorId
  sessions : ActorId → Option SessionInfo

/-- Point update of the session store (what mutating the `&mut SessionInfo`
obtained from `get_or_create_session` / `get_mut` amounts to). -/
def GameSession.setSession (gs : GameSession) (user : ActorId)
    (si : SessionInfo) : GameSession :=
  { gs with sessions := fun v => if v = user then some si else gs.sessions v }

/-- `GameSession::get_or_create_session` as a read: the stored session, or
the default one that `or_default()` would insert. -/
def GameSession.getSession (gs : GameSession) (user : ActorId) : SessionInfo :=
  (gs.sessions user).getD SessionInfo.default

/-- The Rust `str::len` of a word: its UTF-8 byte length. -/
def utf8Len (word : List Char) : Nat :=
  (word.map Char.utf8Size).sum

/-- `GameSession::validate_word`, parametrised by Rust's
`char::is_lowercase` (`isLow`); `word.len()` is the byte length. -/
def validate_word (isLow : Char → Bool) (word : List Char) :
    Except String Unit :=
  if utf8Len word ≠ 5 then
    .error "Word must be 5 characters long"
  else if ¬ word.all isLow then
    .error "Word must contain only lowercase letters"
  else
    .ok ()

/-- The environment of one `handle` execution. -/
structure MsgCtx where
  source : ActorId
  msg_id : MessageId
  program_id : ActorId
  send_msg_id : MessageId
deriving DecidableEq, Repr

/-- One outbound effect of an execution. -/
inductive OutMsg
  | sendWordle (dest : ActorId) (action : WordleAction)
  | reply (ev : GameSessionEvent)
  | sendUser (dest : ActorId) (ev : GameSessionEvent)
  | sendDelayedSelf (dest : ActorId) (action : GameSessionAction) (delay : Nat)
deriving DecidableEq, Repr

/-- Result of a non-panicking `handle` execution. -/
structure HandleResult where
  state : GameSession
  out : List OutMsg
  waited : Bool

/-- The `GameSessionAction::StartGame` arm of `handle`. -/
def handleStartGame (ctx : MsgCtx) (gs : GameSession) :
    Except String HandleResult :=
  let user := ctx.source
  let wordle_id := gs.wordle_program_id
  let session_info := gs.getSession user
  match session_info.session_status with
  | .ReplyReceived wordle_event =>
      .ok ⟨gs.setSession user { session_info with session_status := .InProgress },
           [.reply (GameSessionEvent.ofWordleEvent wordle_event)], false⟩
  | _ =>
      if session_info.can_start_new_game then
        let si := { session_info with
          session_id := ctx.msg_id,
          original_msg_id := ctx.msg_id,
          send_to_wordle_msg_id := ctx.send_msg_id,
          tries := 0,
          session_status := .InProgress }
        .ok ⟨gs.setSession user si,
             [.sendWordle wordle_id (WordleAction.new_start_game user),
              .sendDelayedSelf ctx.program_id
                (.CheckGameStatus user ctx.msg_id) 200],
             true⟩
      else
        .error "The user is in the game"

/-- The `GameSessionAction::CheckWord` arm of `handle`. -/
def handleCheckWord (isLow : Char → Bool) (ctx : MsgCtx) (word : List Char)
    (gs : GameSession) : Except String HandleResult :=
  let user := ctx.source
  let wordle_id := gs.wordle_program_id
  let session_info := gs.getSession user
  match session_info.session_status with
  | .ReplyReceived wordle_event =>
      let has_guessed := wordle_event.has_guessed
      let incremented := session_info.increment_tries
      let si := incremented.1
      if incremented.2 = 5 then
        .ok ⟨gs.setSession user { si with session_status := .GameOver .Lose },
             [.reply (GameSessionEvent.game_over .Lose)], false⟩
      else if has_guessed then
        .ok ⟨gs.setSession user { si with session_status := .GameOver .Win },
             [.reply (GameSessionEvent.game_over .Win)], false⟩
      else
        .ok ⟨gs.setSession user { si with session_status := .InProgress },
             [.reply (GameSessionEvent.ofWordleEvent wordle_event)], false⟩
  | .InProgress =>
      match validate_word isLow word with
      | .error e => .error ("Invalid word: " ++ e)
      | .ok _ =>
          .ok ⟨gs.setSession user
                 (session_info.update_message_ids ctx.msg_id ctx.send_msg_id),
               [.sendWordle wordle_id (WordleAction.new_check_word user word)],
               true⟩
  | _ => .error "The user is not in the game"

/-- The `GameSessionAction::CheckGameStatus` arm of `handle`. -/
def handleCheckGameStatus (ctx : MsgCtx) (user : ActorId)
    (session_id : MessageId) (gs : GameSession) : Except String HandleResult :=
  if ctx.source = ctx.program_id then
    match gs.sessions user with
    | some session_info =>
        if session_id = session_info.session_id ∧ ¬ session_info.is_game_over then
          .ok ⟨gs.setSession user
                 { session_info with session_status := .GameOver .Lose },
               [.sendUser user (GameSessionEvent.GameOver .Lose)], false⟩
        else
          .ok ⟨gs, [], false⟩
    | none => .ok ⟨gs, [], false⟩
  else
    .ok ⟨gs, [], false⟩

/-- `extern "C" fn handle()` from `src/lib.rs`. -/
def handle (isLow : Char → Bool) (ctx : MsgCtx) (action : GameSessionAction)
    (gs : GameSession) : Except String HandleResult :=
  match action with
  | .StartGame => handleStartGame ctx gs
  | .CheckWord word => handleCheckWord isLow ctx word gs
  | .CheckGameStatus user session_id => handleCheckGameStatus ctx user session_id gs

/-- `extern "C" fn handle_reply()` from `src/lib.rs`: returns the new state
and the message id passed to `exec::wake`, when any. -/
def handle_reply (reply_to : MessageId) (wordle_event : WordleEvent)
    (gs : GameSession) : GameSession × Option MessageId :=
  let user := wordle_event.get_user
  match gs.sessions user with
  | some session_info =>
      if reply_to = session_info.send_to_wordle_msg_id ∧
          session_info.is_wait_reply_status then
        (gs.setSession user
           { session_info with session_status := .ReplyReceived wordle_event },
         some session_info.original_msg_id)
      else (gs, none)
  | none => (gs, none)

/-- The state `init` builds from a valid `GameSessionInit`: the wordle
program id and an empty session store. -/
def initState (wordle_program_id : ActorId) : GameSession :=
  ⟨wordle_program_id, fun _ => none⟩

/-- Post-state of an execution: a panic reverts to the pre-state. -/
def postState (gs : GameSession) (r : Except String HandleResult) : GameSession :=
  match r with
  | .ok h => h.state
  | .error _ => gs

/-- Outbound messages of an execution: a panic sends nothing. -/
def outMsgs (r : Except String HandleResult) : List OutMsg :=
  match r with
  | .ok h => h.out
  | .error _ => []

/-! ## Helper lemmas -/

theorem getSession_eq_of_some (gs : GameSession) (u : ActorId) (si : SessionInfo)
    (h : gs.sessions u = some si) : gs.getSession u = si := by
  simp [GameSession.getSession, h]

theorem getSession_eq_of_none (gs : GameSession) (u : ActorId)
    (h : gs.sessions u = none) : gs.getSession u = SessionInfo.default := by
  simp [GameSession.getSession, h]

theorem setSession_self (gs : GameSession) (u : ActorId) (si : SessionInfo) :
    (gs.setSession u si).sessions u = some si := by
  simp [GameSession.setSession]

theorem setSession_other (gs : GameSession) (u v : ActorId) (si : SessionInfo)
    (h : v ≠ u) : (gs.setSession u si).sessions v = gs.sessions v := by
  simp [GameSession.setSession, h]

theorem utf8Len_ge_two_mul (word : List Char)
    (h : ∀ c ∈ word, 2 ≤ c.utf8Size) : 2 * word.length ≤ utf8Len word := by
  induction word with
  | nil => simp [utf8Len]
  | cons c cs ih =>
      have hc := h c (List.mem_cons_self c cs)
      have hcs := ih (fun d hd => h d (List.mem_cons_of_mem c hd))
      simp only [utf8Len, List.map_cons, List.sum_cons, List.length_cons] at *
      omega

theorem utf8Len_eq_length (word : List Char)
    (h : ∀ c ∈ word, c.utf8Size = 1) : utf8Len word = word.length := by
  induction word with
  | nil => simp [utf8Len]
  | cons c cs ih =>
      have hc := h c (List.mem_cons_self c cs)
      have hcs := ih (fun d hd => h d (List.mem_cons_of_mem c hd))
      simp only [utf8Len, List.map_cons, List.sum_cons, List.length_cons] at *
      omega

/-! ## C3: the win condition -/

/-- C3 counterexample: a `WordChecked` result whose `correct_positions`
list has five entries but a repeated index (it does not cover position 4)
is nevertheless declared a win by `has_guessed`, contradicting the claim
that such a result is not a win. -/
theorem has_guessed_repeated_positions_cex :
    WordleEvent.has_guessed (.WordChecked 7 [0, 0, 1, 2, 3] []) = true ∧
    (4 : Nat) ∉ ([0, 0, 1, 2, 3] : List Nat) := by
  decide

/-- C3 amended: `has_guessed` returns `true` exactly when the result is
`WordChecked` with a `correct_positions` list of length exactly 5 whose
entries are all `< 5` — entries need not be distinct nor cover all five
positions; a `GameStarted` result is never a win. -/
theorem has_guessed_spec (ev : WordleEvent) :
    (ev.has_guessed = true ↔
      ∃ user cp cw, ev = .WordChecked user cp cw ∧
        cp.length = 5 ∧ ∀ p ∈ cp, p < 5) ∧
    (∀ user, ev = .GameStarted user → ev.has_guessed = false) := by
  constructor
  · cases ev with
    | GameStarted user => simp [WordleEvent.has_guessed]
    | WordChecked user cp cw =>
        simp only [WordleEvent.has_guessed, Bool.and_eq_true, beq_iff_eq,
          List.all_eq_true, decide_eq_true_eq]
        constructor
        · rintro ⟨h1, h2⟩
          exact ⟨user, cp, cw, rfl, h1, h2⟩
        · rintro ⟨u, c1, c2, heq, h1, h2⟩
          cases heq
          exact ⟨h1, h2⟩
  · intro user h
    subst h
    simp [WordleEvent.has_guessed]

/-- Witness for C3's amended theorem at a concrete evaluation result. -/
theorem has_guessed_spec_witness :
    WordleEvent.has_guessed (.WordChecked 3 [4, 3, 2, 1, 0] [1]) = true :=
  ((has_guessed_spec (.WordChecked 3 [4, 3, 2, 1, 0] [1])).1).mpr
    ⟨3, [4, 3, 2, 1, 0], [1], rfl, by decide, by decide⟩

/-! ## C10: guess validation -/

/-- C10: for every lowercase predicate `isLow` (Rust's
`char::is_lowercase`), `validate_word` accepts a word exactly when its
UTF-8 byte length is 5 and every character satisfies `isLow`; a
five-character word of multi-byte (`≥ 2` bytes) lowercase characters is
rejected for its length, while five single-byte characters satisfying
`isLow` are accepted — acceptance depends only on `isLow`, not on being
ASCII-alphabetic. -/
theorem validate_word_spec (isLow : Char → Bool) (word : List Char) :
    (validate_word isLow word = .ok () ↔
      utf8Len word = 5 ∧ ∀ c ∈ word, isLow c = true) ∧
    (word.length = 5 → (∀ c ∈ word, 2 ≤ c.utf8Size) →
      validate_word isLow word = .error "Word must be 5 characters long") ∧
    (word.length = 5 → (∀ c ∈ word, c.utf8Size = 1 ∧ isLow c = true) →
      validate_word isLow word = .ok ()) := by
  refine ⟨?_, ?_, ?_⟩
  · constructor
    · intro h
      by_cases hlen : utf8Len word = 5
      · refine ⟨hlen, ?_⟩
        intro c hc
        by_cases hall : word.all isLow
        · exact List.all_eq_true.mp hall c hc
        · simp [validate_word, hlen, hall] at h
      · simp [validate_word, hlen] at h
    · rintro ⟨hlen, hall⟩
      have hall' : word.all isLow := List.all_eq_true.mpr hall
      simp [validate_word, hlen, hall']
  · intro hlen hbig
    have h2 : 2 * word.length ≤ utf8Len word := utf8Len_ge_two_mul word hbig
    have : utf8Len word ≠ 5 := by omega
    simp [validate_word, this]
  · intro hlen hok
    have h1 : utf8Len word = word.length :=
      utf8Len_eq_length word (fun c hc => (hok c hc).1)
    have hall : word.all isLow := List.all_eq_true.mpr (fun c hc => (hok c hc).2)
    simp [validate_word, h1, hlen, hall]

/-- Witness for C10: "hello" is accepted (for ASCII lowercase), while a
five-character word of two-byte lowercase characters is rejected for its
byte length. -/
theorem validate_word_spec_witness :
    validate_word (fun c => c.isLower) ['h', 'e', 'l', 'l', 'o'] = .ok () ∧
    validate_word (fun c => decide (c = 'é')) ['é', 'é', 'é', 'é', 'é'] =
      .error "Word must be 5 characters long" :=
  ⟨((validate_word_spec (fun c => c.isLower) ['h', 'e', 'l', 'l', 'o']).1).mpr
      ⟨by decide, by decide⟩,
   (validate_word_spec (fun c => decide (c = 'é')) ['é', 'é', 'é', 'é', 'é']).2.1
      (by decide) (by decide)⟩

/-! ## C9: the StartGame cached-reply branch is a pure status flip -/

/-- C9: when `StartGame` finds the session in `ReplyReceived`, the only
field it changes is the status (set to `InProgress`): `session_id`,
`original_msg_id`, `send_to_wordle_msg_id` and `tries` keep their values,
the only outbound message is the reply carrying the cached result (no
wordle request, no delayed timeout message), and the caller is not
suspended. -/
theorem startGame_replyReceived_frame (isLow : Char → Bool) (ctx : MsgCtx)
    (gs : GameSession) (si : SessionInfo) (ev : WordleEvent)
    (hsi : gs.sessions ctx.source = some si)
    (hst : si.session_status = .ReplyReceived ev) :
    handle isLow ctx .StartGame gs =
      .ok ⟨gs.setSession ctx.source
             ⟨si.session_id, si.original_msg_id, si.send_to_wordle_msg_id,
              si.tries, .InProgress⟩,
           [.reply (GameSessionEvent.ofWordleEvent ev)], false⟩ := by
  have hget : gs.getSession ctx.source = si := getSession_eq_of_some _ _ _ hsi
  simp [handle, handleStartGame, hget, hst]

/-- Witness for C9 at a concrete session holding a cached guess reply. -/
theorem startGame_replyReceived_frame_witness :
    handle (fun _ => false) ⟨7, 100, 1, 101⟩ .StartGame
      ⟨1, fun v => if v = 7 then
            some ⟨10, 11, 12, 2, .ReplyReceived (.WordChecked 7 [1] [2])⟩
          else none⟩ =
      .ok ⟨GameSession.setSession
             ⟨1, fun v => if v = 7 then
                   some ⟨10, 11, 12, 2, .ReplyReceived (.WordChecked 7 [1] [2])⟩
                 else none⟩ 7
             ⟨10, 11, 12, 2, .InProgress⟩,
           [.reply (GameSessionEvent.ofWordleEvent (.WordChecked 7 [1] [2]))],
           false⟩ :=
  startGame_replyReceived_frame (fun _ => false) ⟨7, 100, 1, 101⟩ _
    ⟨10, 11, 12, 2, .ReplyReceived (.WordChecked 7 [1] [2])⟩
    (.WordChecked 7 [1] [2]) rfl rfl

/-! ## C1: tries-limit is checked before the win condition -/

/-- C1: in the `CheckWord` cached-reply branch the tries limit is checked
before the win condition: when `tries + 1` reaches the limit 5 the session
is finalized `GameOver(Lose)` and the caller receives `Lose` — with no
hypothesis on `has_guessed`, so also for a full five-position match — and
the win condition decides the outcome only when `tries + 1` is below the
limit. -/
theorem checkWord_limit_checked_before_win (isLow : Char → Bool) (ctx : MsgCtx)
    (word : List Char) (gs : GameSession) (si : SessionInfo) (ev : WordleEvent)
    (hsi : gs.sessions ctx.source = some si)
    (hst : si.session_status = .ReplyReceived ev) :
    (si.tries + 1 = 5 →
      handle isLow ctx (.CheckWord word) gs =
        .ok ⟨gs.setSession ctx.source
               { si with tries := 5, session_status := .GameOver .Lose },
             [.reply (.GameOver .Lose)], false⟩) ∧
    (si.tries + 1 < 5 → ev.has_guessed = true →
      handle isLow ctx (.CheckWord word) gs =
        .ok ⟨gs.setSession ctx.source
               { si with tries := si.tries + 1, session_status := .GameOver .Win },
             [.reply (.GameOver .Win)], false⟩) := by
  have hget : gs.getSession ctx.source = si := getSession_eq_of_some _ _ _ hsi
  constructor
  · intro hfive
    have hmod : (si.tries + 1) % 256 = 5 := by omega
    simp [handle, handleCheckWord, hget, hst, SessionInfo.increment_tries, hmod,
      GameSessionEvent.game_over]
  · intro hlt hwin
    have hmod : (si.tries + 1) % 256 = si.tries + 1 := Nat.mod_eq_of_lt (by omega)
    have hne : ¬ (si.tries + 1 = 5) := by omega
    simp [handle, handleCheckWord, hget, hst, SessionInfo.increment_tries, hmod,
      hne, hwin, GameSessionEvent.game_over]

/-- Witness for C1: a concrete final (fifth) try whose cached result is a
full five-position match still resolves as a loss. -/
theorem checkWord_limit_checked_before_win_witness :
    handle (fun _ => false) ⟨7, 100, 1, 101⟩ (.CheckWord ['h', 'e', 'l', 'l', 'o'])
      ⟨1, fun v => if v = 7 then
            some ⟨10, 11, 12, 4, .ReplyReceived (.WordChecked 7 [0, 1, 2, 3, 4] [])⟩
          else none⟩ =
      .ok ⟨GameSession.setSession
             ⟨1, fun v => if v = 7 then
                   some ⟨10, 11, 12, 4, .ReplyReceived (.WordChecked 7 [0, 1, 2, 3, 4] [])⟩
                 else none⟩ 7
             ⟨10, 11, 12, 5, .GameOver .Lose⟩,
           [.reply (.GameOver .Lose)], false⟩ :=
  (checkWord_limit_checked_before_win (fun _ => false) ⟨7, 100, 1, 101⟩
      ['h', 'e', 'l', 'l', 'o'] _
      ⟨10, 11, 12, 4, .ReplyReceived (.WordChecked 7 [0, 1, 2, 3, 4] [])⟩
      (.WordChecked 7 [0, 1, 2, 3, 4] []) rfl rfl).1 rfl

/-! ## C2: StartGame on a cached guess reply -/

/-- Concrete state for C2: user 7 holds an unconsumed `ReplyReceived`
produced by a guess (a `WordChecked` reply). -/
def gsWithGuessReply : GameSession :=
  ⟨1, fun v => if v = 7 then
        some ⟨10, 11, 12, 2, .ReplyReceived (.WordChecked 7 [1] [2])⟩
      else none⟩

/-- C2 counterexample: with user 7 holding an unconsumed `WordChecked`
reply, a `StartGame` call does not fail — it sends back the cached
check-word result — and it mutates the session, whose status becomes
`InProgress`; the claim that it fails with "player already in a game"
and leaves the state unchanged is false. -/
theorem startGame_on_guess_reply_cex :
    outMsgs (handle (fun _ => false) ⟨7, 100, 1, 101⟩ .StartGame gsWithGuessReply) =
      [.reply (.CheckWordResult [1] [2] [1] [2])] ∧
    (postState gsWithGuessReply
        (handle (fun _ => false) ⟨7, 100, 1, 101⟩ .StartGame gsWithGuessReply)).sessions 7 =
      some ⟨10, 11, 12, 2, .InProgress⟩ ∧
    gsWithGuessReply.sessions 7 =
      some ⟨10, 11, 12, 2, .ReplyReceived (.WordChecked 7 [1] [2])⟩ := by
  refine ⟨rfl, ?_, rfl⟩
  simp [handle, handleStartGame, gsWithGuessReply, GameSession.getSession,
    postState, GameSession.setSession]

/-- C2 amended: `StartGame` on a session holding any unconsumed
`ReplyReceived` — whether produced by a guess or by a start request —
succeeds, replying with the cached result and setting the status to
`InProgress`; the "The user is in the game" failure (which leaves the
state unchanged, since a panic reverts the execution) occurs exactly when
the session is `InProgress`. -/
theorem startGame_on_reply_or_inprogress (isLow : Char → Bool) (ctx : MsgCtx)
    (gs : GameSession) (si : SessionInfo)
    (hsi : gs.sessions ctx.source = some si) :
    (∀ ev, si.session_status = .ReplyReceived ev →
      handle isLow ctx .StartGame gs =
        .ok ⟨gs.setSession ctx.source { si with session_status := .InProgress },
             [.reply (GameSessionEvent.ofWordleEvent ev)], false⟩) ∧
    (si.session_status = .InProgress →
      handle isLow ctx .StartGame gs = .error "The user is in the game") := by
  have hget : gs.getSession ctx.source = si := getSession_eq_of_some _ _ _ hsi
  constructor
  · intro ev hst
    simp [handle, handleStartGame, hget, hst]
  · intro hst
    simp [handle, handleStartGame, hget, hst, SessionInfo.can_start_new_game,
      SessionInfo.is_init, SessionInfo.is_game_over]

/-- Witness for C2's amended theorem: both conjuncts at concrete states. -/
theorem startGame_on_reply_or_inprogress_witness :
    handle (fun _ => false) ⟨7, 100, 1, 101⟩ .StartGame gsWithGuessReply =
      .ok ⟨gsWithGuessReply.setSession 7
             { session_id := 10, original_msg_id := 11, send_to_wordle_msg_id := 12,
               tries := 2, session_status := .InProgress },
           [.reply (GameSessionEvent.ofWordleEvent (.WordChecked 7 [1] [2]))], false⟩ ∧
    handle (fun _ => false) ⟨9, 100, 1, 101⟩ .StartGame
        ⟨1, fun v => if v = 9 then some ⟨10, 11, 12, 0, .InProgress⟩ else none⟩ =
      .error "The user is in the game" :=
  ⟨(startGame_on_reply_or_inprogress (fun _ => false) ⟨7, 100, 1, 101⟩
      gsWithGuessReply ⟨10, 11, 12, 2, .ReplyReceived (.WordChecked 7 [1] [2])⟩
      rfl).1 (.WordChecked 7 [1] [2]) rfl,
   (startGame_on_reply_or_inprogress (fun _ => false) ⟨9, 100, 1, 101⟩
      ⟨1, fun v => if v = 9 then some ⟨10, 11, 12, 0, .InProgress⟩ else none⟩
      ⟨10, 11, 12, 0, .InProgress⟩ rfl).2 rfl⟩

/-! ## C4: a fresh StartGame -/

/-- C4: when the player's session is `Init` or `GameOver` (an absent
session reads as the default `Init` one), `StartGame` sends a start
request to the wordle program, records the correlation identifiers
(`session_id` and `original_msg_id` become the current message id,
`send_to_wordle_msg_id` the id of the outbound request), resets `tries`
to 0, sets the status to `InProgress`, schedules a self-addressed
`CheckGameStatus` message with delay 200 carrying the new session id, and
suspends the caller (`waited = true`). -/
theorem startGame_fresh (isLow : Char → Bool) (ctx : MsgCtx) (gs : GameSession)
    (h : (gs.getSession ctx.source).session_status = .Init ∨
      ∃ outcome, (gs.getSession ctx.source).session_status = .GameOver outcome) :
    handle isLow ctx .StartGame gs =
      .ok ⟨gs.setSession ctx.source
             ⟨ctx.msg_id, ctx.msg_id, ctx.send_msg_id, 0, .InProgress⟩,
           [.sendWordle gs.wordle_program_id (.StartGame ctx.source),
            .sendDelayedSelf ctx.program_id
              (.CheckGameStatus ctx.source ctx.msg_id) 200],
           true⟩ := by
  rcases h with hst | ⟨outcome, hst⟩ <;>
    simp [handle, handleStartGame, hst, SessionInfo.can_start_new_game,
      SessionInfo.is_init, SessionInfo.is_game_over,
      WordleAction.new_start_game]

/-- Witness for C4: starting from an entirely absent session (which
counts as `Init`). -/
theorem startGame_fresh_witness :
    handle (fun _ => false) ⟨7, 100, 1, 101⟩ .StartGame (initState 1) =
      .ok ⟨(initState 1).setSession 7 ⟨100, 100, 101, 0, .InProgress⟩,
           [.sendWordle 1 (.StartGame 7),
            .sendDelayedSelf 1 (.CheckGameStatus 7 100) 200],
           true⟩ :=
  startGame_fresh (fun _ => false) ⟨7, 100, 1, 101⟩ (initState 1) (Or.inl rfl)

/-! ## C6: the timeout check -/

/-- C6: a `CheckGameStatus` message is a complete no-op (state returned
unchanged, no outbound message, no suspension) unless its sender is the
program itself, a session exists for the named player, the carried
`session_id` equals that session's current `session_id`, and the session
is not already `GameOver`; when all of these hold it sets the session to
`GameOver(Lose)` and sends a `GameOver(Lose)` notification to the
player. -/
theorem checkGameStatus_spec (isLow : Char → Bool) (ctx : MsgCtx)
    (user : ActorId) (session_id : MessageId) (gs : GameSession) :
    (ctx.source ≠ ctx.program_id →
      handle isLow ctx (.CheckGameStatus user session_id) gs = .ok ⟨gs, [], false⟩) ∧
    (gs.sessions user = none →
      handle isLow ctx (.CheckGameStatus user session_id) gs = .ok ⟨gs, [], false⟩) ∧
    (∀ si, gs.sessions user = some si →
      session_id ≠ si.session_id ∨ si.is_game_over = true →
      handle isLow ctx (.CheckGameStatus user session_id) gs = .ok ⟨gs, [], false⟩) ∧
    (∀ si, ctx.source = ctx.program_id → gs.sessions user = some si →
      session_id = si.session_id → si.is_game_over = false →
      handle isLow ctx (.CheckGameStatus user session_id) gs =
        .ok ⟨gs.setSession user { si with session_status := .GameOver .Lose },
             [.sendUser user (.GameOver .Lose)], false⟩) := by
  refine ⟨?_, ?_, ?_, ?_⟩
  · intro hsrc
    simp [handle, handleCheckGameStatus, hsrc]
  · intro hnone
    by_cases hsrc : ctx.source = ctx.program_id <;>
      simp [handle, handleCheckGameStatus, hsrc, hnone]
  · intro si hsi hmis
    by_cases hsrc : ctx.source = ctx.program_id
    · rcases hmis with hid | hover
      · simp [handle, handleCheckGameStatus, hsrc, hsi, hid]
      · simp [handle, handleCheckGameStatus, hsrc, hsi, hover]
    · simp [handle, handleCheckGameStatus, hsrc]
  · intro si hsrc hsi hid hover
    simp [handle, handleCheckGameStatus, hsrc, hsi, hid, hover]

/-- Witness for C6: a matching timeout on an unresolved session forces
the loss and notifies the player. -/
theorem checkGameStatus_spec_witness :
    handle (fun _ => false) ⟨1, 100, 1, 101⟩ (.CheckGameStatus 7 10)
      ⟨1, fun v => if v = 7 then some ⟨10, 11, 12, 2, .InProgress⟩ else none⟩ =
      .ok ⟨GameSession.setSession
             ⟨1, fun v => if v = 7 then some ⟨10, 11, 12, 2, .InProgress⟩ else none⟩
             7 { session_id := 10, original_msg_id := 11,
                 send_to_wordle_msg_id := 12, tries := 2,
                 session_status := .GameOver .Lose },
           [.sendUser 7 (.GameOver .Lose)], false⟩ :=
  (checkGameStatus_spec (fun _ => false) ⟨1, 100, 1, 101⟩ 7 10
    ⟨1, fun v => if v = 7 then some ⟨10, 11, 12, 2, .InProgress⟩ else none⟩).2.2.2
    ⟨10, 11, 12, 2, .InProgress⟩ rfl rfl rfl rfl

/-! ## C7: the evaluation-reply handler -/

/-- C7: `handle_reply` is a no-op when no session exists for the player
embedded in the reply, or when the reply's correlation identifier differs
from the session's recorded `send_to_wordle_msg_id`, or when the session
is not `InProgress`; otherwise it stores the result as
`ReplyReceived(result)` and wakes the message identified by the session's
`original_msg_id`; and it never changes any other player's session. -/
theorem handle_reply_spec (reply_to : MessageId) (ev : WordleEvent)
    (gs : GameSession) :
    (gs.sessions ev.get_user = none → handle_reply reply_to ev gs = (gs, none)) ∧
    (∀ si, gs.sessions ev.get_user = some si →
      reply_to ≠ si.send_to_wordle_msg_id ∨ si.is_wait_reply_status = false →
      handle_reply reply_to ev gs = (gs, none)) ∧
    (∀ si, gs.sessions ev.get_user = some si →
      reply_to = si.send_to_wordle_msg_id → si.session_status = .InProgress →
      handle_reply reply_to ev gs =
        (gs.setSession ev.get_user { si with session_status := .ReplyReceived ev },
         some si.original_msg_id)) ∧
    (∀ v, v ≠ ev.get_user →
      (handle_reply reply_to ev gs).1.sessions v = gs.sessions v) := by
  refine ⟨?_, ?_, ?_, ?_⟩
  · intro hnone
    simp [handle_reply, hnone]
  · intro si hsi hmis
    rcases hmis with hid | hwait
    · simp [handle_reply, hsi, hid]
    · simp [handle_reply, hsi, hwait]
  · intro si hsi hid hst
    have hwait : si.is_wait_reply_status = true := by
      simp [SessionInfo.is_wait_reply_status, hst]
    simp [handle_reply, hsi, hid, hwait]
  · intro v hv
    match hsi : gs.sessions ev.get_user with
    | none => simp [handle_reply, hsi]
    | some si =>
        by_cases hcond : reply_to = si.send_to_wordle_msg_id ∧
            si.is_wait_reply_status = true
        · simp [handle_reply, hsi, hcond.1, hcond.2, GameSession.setSession, hv]
        · rw [Classical.not_and_iff_or_not_not] at hcond
          rcases hcond with hid | hwait
          · simp [handle_reply, hsi, hid]
          · simp only [Bool.not_eq_true] at hwait
            simp [handle_reply, hsi, hwait]

/-- Witness for C7: a correlated reply in `InProgress` stores the result
and wakes the original message. -/
theorem handle_reply_spec_witness :
    handle_reply 12 (.WordChecked 7 [0] [])
      ⟨1, fun v => if v = 7 then some ⟨10, 11, 12, 2, .InProgress⟩ else none⟩ =
      (GameSession.setSession
         ⟨1, fun v => if v = 7 then some ⟨10, 11, 12, 2, .InProgress⟩ else none⟩
         7 { session_id := 10, original_msg_id := 11,
             send_to_wordle_msg_id := 12, tries := 2,
             session_status := .ReplyReceived (.WordChecked 7 [0] []) },
       some 11) :=
  (handle_reply_spec 12 (.WordChecked 7 [0] [])
    ⟨1, fun v => if v = 7 then some ⟨10, 11, 12, 2, .InProgress⟩ else none⟩).2.2.1
    ⟨10, 11, 12, 2, .InProgress⟩ rfl rfl rfl

/-! ## C8: malformed guesses -/

/-- Concrete state for C8: user 7 holds an unconsumed non-winning
`WordChecked` reply and has 0 tries. -/
def gsReplyZeroTries : GameSession :=
  ⟨1, fun v => if v = 7 then
        some ⟨10, 11, 12, 0, .ReplyReceived (.WordChecked 7 [] [])⟩
      else none⟩

/-- C8 counterexample: the guess "ab@cd" is malformed (rejected by
`validate_word`), yet a `CheckWord` call carrying it while the session is
in `ReplyReceived` does not fail: it consumes a try (`tries` goes from 0
to 1), replies with the cached result and mutates the session back to
`InProgress` — the claim that a malformed guess leaves the session
unmutated regardless of `InProgress`/`ReplyReceived` is false. -/
theorem checkWord_malformed_on_reply_cex :
    validate_word (fun c => c.isLower) ['a', 'b', '@', 'c', 'd'] =
      .error "Word must contain only lowercase letters" ∧
    outMsgs (handle (fun c => c.isLower) ⟨7, 100, 1, 101⟩
        (.CheckWord ['a', 'b', '@', 'c', 'd']) gsReplyZeroTries) =
      [.reply (.CheckWordResult [] [] [] [])] ∧
    (postState gsReplyZeroTries
        (handle (fun c => c.isLower) ⟨7, 100, 1, 101⟩
          (.CheckWord ['a', 'b', '@', 'c', 'd']) gsReplyZeroTries)).sessions 7 =
      some ⟨10, 11, 12, 1, .InProgress⟩ ∧
    gsReplyZeroTries.sessions 7 =
      some ⟨10, 11, 12, 0, .ReplyReceived (.WordChecked 7 [] [])⟩ := by
  refine ⟨rfl, rfl, ?_, rfl⟩
  simp [handle, handleCheckWord, gsReplyZeroTries, GameSession.getSession,
    SessionInfo.increment_tries, WordleEvent.has_guessed, postState,
    GameSession.setSession]

/-- C8 amended: a malformed guess fails without consuming a try, without
sending any request and without mutating the session only when the
session is `InProgress` (there `validate_word` runs before anything else,
and the panic reverts the execution); when the session is in
`ReplyReceived` the guess string is never validated — the handler's
behaviour is entirely independent of the guess — and the cached result is
processed, consuming a try. -/
theorem checkWord_validation_only_inprogress (isLow : Char → Bool)
    (ctx : MsgCtx) (word : List Char) (gs : GameSession) (si : SessionInfo)
    (e : String) (hsi : gs.sessions ctx.source = some si) :
    (si.session_status = .InProgress → validate_word isLow word = .error e →
      handle isLow ctx (.CheckWord word) gs = .error ("Invalid word: " ++ e) ∧
      postState gs (handle isLow ctx (.CheckWord word) gs) = gs ∧
      outMsgs (handle isLow ctx (.CheckWord word) gs) = []) ∧
    (∀ ev, si.session_status = .ReplyReceived ev → ∀ word2,
      handle isLow ctx (.CheckWord word) gs =
        handle isLow ctx (.CheckWord word2) gs) := by
  have hget : gs.getSession ctx.source = si := getSession_eq_of_some _ _ _ hsi
  constructor
  · intro hst hbad
    have h1 : handle isLow ctx (.CheckWord word) gs =
        .error ("Invalid word: " ++ e) := by
      simp [handle, handleCheckWord, hget, hst, hbad]
    exact ⟨h1, by simp [h1, postState], by simp [h1, outMsgs]⟩
  · intro ev hst word2
    simp [handle, handleCheckWord, hget, hst]

/-- Witness for C8's amended theorem: the `InProgress` conjunct at the
malformed guess "ab@cd", and the guess-independence conjunct on a cached
reply. -/
theorem checkWord_validation_only_inprogress_witness :
    (handle (fun c => c.isLower) ⟨9, 100, 1, 101⟩
        (.CheckWord ['a', 'b', '@', 'c', 'd'])
        ⟨1, fun v => if v = 9 then some ⟨10, 11, 12, 3, .InProgress⟩ else none⟩ =
      .error ("Invalid word: " ++ "Word must contain only lowercase letters")) ∧
    handle (fun c => c.isLower) ⟨7, 100, 1, 101⟩
        (.CheckWord ['a', 'b', '@', 'c', 'd']) gsReplyZeroTries =
      handle (fun c => c.isLower) ⟨7, 100, 1, 101⟩
        (.CheckWord ['q', 'u', 'e', 'r', 'y']) gsReplyZeroTries :=
  ⟨((checkWord_validation_only_inprogress (fun c => c.isLower) ⟨9, 100, 1, 101⟩
      ['a', 'b', '@', 'c', 'd']
      ⟨1, fun v => if v = 9 then some ⟨10, 11, 12, 3, .InProgress⟩ else none⟩
      ⟨10, 11, 12, 3, .InProgress⟩ "Word must contain only lowercase letters"
      rfl).1 rfl rfl).1,
   (checkWord_validation_only_inprogress (fun c => c.isLower) ⟨7, 100, 1, 101⟩
      ['a', 'b', '@', 'c', 'd'] gsReplyZeroTries
      ⟨10, 11, 12, 0, .ReplyReceived (.WordChecked 7 [] [])⟩ "" rfl).2
      (.WordChecked 7 [] []) rfl ['q', 'u', 'e', 'r', 'y']⟩

/-! ## C5: the tries bound over all reachable states -/

/-- Reachable orchestrator states: the freshly initialized state, closed
under non-panicking `handle` executions (a panicking execution reverts
the state, leaving it reachable) and `handle_reply` executions. -/
inductive Reachable (isLow : Char → Bool) (wid : ActorId) : GameSession → Prop
  | start : Reachable isLow wid (initState wid)
  | handle_step {gs : GameSession} {r : HandleResult} (ctx : MsgCtx)
      (action : GameSessionAction) :
      Reachable isLow wid gs → handle isLow ctx action gs = .ok r →
      Reachable isLow wid r.state
  | reply_step {gs : GameSession} (reply_to : MessageId) (ev : WordleEvent) :
      Reachable isLow wid gs → Reachable isLow wid (handle_reply reply_to ev gs).1

/-- The inductive invariant: every stored session has at most 5 tries,
strictly fewer while still active (`InProgress` or `ReplyReceived`). -/
def triesInv (gs : GameSession) : Prop :=
  ∀ u si, gs.sessions u = some si →
    si.tries ≤ 5 ∧ (si.session_status.is_active = true → si.tries < 5)

theorem triesInv_setSession (gs : GameSession) (u : ActorId) (si : SessionInfo)
    (hgs : triesInv gs) (h5 : si.tries ≤ 5)
    (hact : si.session_status.is_active = true → si.tries < 5) :
    triesInv (gs.setSession u si) := by
  intro v si' hv
  by_cases hvu : v = u
  · subst hvu
    rw [setSession_self] at hv
    cases hv
    exact ⟨h5, hact⟩
  · rw [setSession_other _ _ _ _ hvu] at hv
    exact hgs v si' hv

theorem sessions_eq_of_status_ne_init (gs : GameSession) (u : ActorId)
    (h : (gs.getSession u).session_status ≠ .Init) :
    gs.sessions u = some (gs.getSession u) := by
  match hsi : gs.sessions u with
  | some si => simp [GameSession.getSession, hsi]
  | none =>
      exfalso
      exact h (by simp [GameSession.getSession, hsi, SessionInfo.default])

theorem triesInv_handleStartGame (ctx : MsgCtx) (gs : GameSession)
    (r : HandleResult) (hgs : triesInv gs)
    (h : handleStartGame ctx gs = .ok r) : triesInv r.state := by
  simp only [handleStartGame] at h
  split at h
  · rename_i ev heq
    cases h
    have hsome : gs.sessions ctx.source = some (gs.getSession ctx.source) :=
      sessions_eq_of_status_ne_init gs ctx.source (by simp [heq])
    have hlt : (gs.getSession ctx.source).tries < 5 :=
      (hgs ctx.source _ hsome).2 (by simp [heq, SessionStatus.is_active])
    exact triesInv_setSession _ _ _ hgs (by dsimp only; omega)
      (fun _ => by dsimp only; omega)
  · split at h
    · cases h
      exact triesInv_setSession _ _ _ hgs (by dsimp only; omega)
        (fun _ => by dsimp only; omega)
    · exact absurd h (by simp)

theorem triesInv_handleCheckWord (isLow : Char → Bool) (ctx : MsgCtx)
    (word : List Char) (gs : GameSession) (r : HandleResult) (hgs : triesInv gs)
    (h : handleCheckWord isLow ctx word gs = .ok r) : triesInv r.state := by
  simp only [handleCheckWord, SessionInfo.increment_tries] at h
  split at h
  · rename_i ev heq
    have hsome : gs.sessions ctx.source = some (gs.getSession ctx.source) :=
      sessions_eq_of_status_ne_init gs ctx.source (by simp [heq])
    have hlt : (gs.getSession ctx.source).tries < 5 :=
      (hgs ctx.source _ hsome).2 (by simp [heq, SessionStatus.is_active])
    have hmod : ((gs.getSession ctx.source).tries + 1) % 256 =
        (gs.getSession ctx.source).tries + 1 := Nat.mod_eq_of_lt (by omega)
    split at h
    · cases h
      exact triesInv_setSession _ _ _ hgs (by dsimp only; omega)
        (fun hact => by simp [SessionStatus.is_active] at hact)
    · split at h
      · cases h
        exact triesInv_setSession _ _ _ hgs (by dsimp only; omega)
          (fun hact => by simp [SessionStatus.is_active] at hact)
      · rename_i hne _
        cases h
        exact triesInv_setSession _ _ _ hgs (by dsimp only; omega)
          (fun _ => by dsimp only; omega)
  · rename_i heq
    have hsome : gs.sessions ctx.source = some (gs.getSession ctx.source) :=
      sessions_eq_of_status_ne_init gs ctx.source (by simp [heq])
    have hlt : (gs.getSession ctx.source).tries < 5 :=
      (hgs ctx.source _ hsome).2 (by simp [heq, SessionStatus.is_active])
    split at h
    · exact absurd h (by simp)
    · cases h
      refine triesInv_setSession _ _ _ hgs
        (by dsimp only [SessionInfo.update_message_ids]; omega) (fun _ => ?_)
      dsimp only [SessionInfo.update_message_ids]
      omega
  · exact absurd h (by simp)

theorem triesInv_handleCheckGameStatus (ctx : MsgCtx) (user : ActorId)
    (session_id : MessageId) (gs : GameSession) (r : HandleResult)
    (hgs : triesInv gs)
    (h : handleCheckGameStatus ctx user session_id gs = .ok r) :
    triesInv r.state := by
  simp only [handleCheckGameStatus] at h
  split at h
  · split at h
    · rename_i si hsi
      split at h
      · cases h
        refine triesInv_setSession _ _ _ hgs ?_
          (fun hact => by simp [SessionStatus.is_active] at hact)
        exact (hgs user si hsi).1
      · cases h
        exact hgs
    · cases h
      exact hgs
  · cases h
    exact hgs

theorem triesInv_handle (isLow : Char → Bool) (ctx : MsgCtx)
    (action : GameSessionAction) (gs : GameSession) (r : HandleResult)
    (hgs : triesInv gs) (h : handle isLow ctx action gs = .ok r) :
    triesInv r.state := by
  cases action with
  | StartGame => exact triesInv_handleStartGame ctx gs r hgs h
  | CheckWord word => exact triesInv_handleCheckWord isLow ctx word gs r hgs h
  | CheckGameStatus user session_id =>
      exact triesInv_handleCheckGameStatus ctx user session_id gs r hgs h

theorem is_wait_reply_status_iff (si : SessionInfo) :
    si.is_wait_reply_status = true ↔ si.session_status = .InProgress := by
  cases h : si.session_status <;>
    simp [SessionInfo.is_wait_reply_status, h]

theorem triesInv_handle_reply (reply_to : MessageId) (ev : WordleEvent)
    (gs : GameSession) (hgs : triesInv gs) :
    triesInv (handle_reply reply_to ev gs).1 := by
  simp only [handle_reply]
  split
  · rename_i si hsi
    split
    · rename_i hcond
      have hst : si.session_status = .InProgress :=
        (is_wait_reply_status_iff si).mp hcond.2
      have hlt : si.tries < 5 :=
        (hgs ev.get_user si hsi).2 (by simp [hst, SessionStatus.is_active])
      exact triesInv_setSession _ _ _ hgs (by dsimp only; omega)
        (fun _ => by dsimp only; omega)
    · exact hgs
  · exact hgs

theorem triesInv_reachable (isLow : Char → Bool) (wid : ActorId)
    (gs : GameSession) (h : Reachable isLow wid gs) : triesInv gs := by
  induction h with
  | start =>
      intro u si hsi
      simp [initState] at hsi
  | handle_step ctx action hreach heq ih =>
      exact triesInv_handle _ _ _ _ _ ih heq
  | reply_step reply_to ev hreach ih =>
      exact triesInv_handle_reply _ _ _ ih

/-- C5: in every reachable state, no session's `tries` exceeds 5; an
accepted guess (one consuming a cached reply) increments `tries` by
exactly one, and the guess that brings `tries` to 5 finalizes the session
as `GameOver(Lose)`; once a session is `GameOver`, a further guess is
rejected ("The user is not in the game") until a new game is started. -/
theorem tries_never_exceed_limit (isLow : Char → Bool) (wid : ActorId)
    (gs : GameSession) (hreach : Reachable isLow wid gs) :
    (∀ u si, gs.sessions u = some si → si.tries ≤ 5) ∧
    (∀ ctx word si ev, gs.sessions ctx.source = some si →
      si.session_status = .ReplyReceived ev →
      handle isLow ctx (.CheckWord word) gs =
        .ok ⟨gs.setSession ctx.source
               { si with
                 tries := si.tries + 1,
                 session_status :=
                   if si.tries + 1 = 5 then .GameOver .Lose
                   else if ev.has_guessed then .GameOver .Win
                   else .InProgress },
             [.reply (if si.tries + 1 = 5 then .GameOver .Lose
                else if ev.has_guessed then .GameOver .Win
                else GameSessionEvent.ofWordleEvent ev)], false⟩) ∧
    (∀ ctx word si outcome, gs.sessions ctx.source = some si →
      si.session_status = .GameOver outcome →
      handle isLow ctx (.CheckWord word) gs =
        .error "The user is not in the game") := by
  have hinv : triesInv gs := triesInv_reachable isLow wid gs hreach
  refine ⟨fun u si hsi => (hinv u si hsi).1, ?_, ?_⟩
  · intro ctx word si ev hsi hst
    have hget : gs.getSession ctx.source = si := getSession_eq_of_some _ _ _ hsi
    have hlt : si.tries < 5 :=
      (hinv ctx.source si hsi).2 (by simp [hst, SessionStatus.is_active])
    have hmod : (si.tries + 1) % 256 = si.tries + 1 := Nat.mod_eq_of_lt (by omega)
    by_cases h5 : si.tries + 1 = 5
    · simp [handle, handleCheckWord, hget, hst, SessionInfo.increment_tries,
        hmod, h5, GameSessionEvent.game_over]
    · by_cases hw : ev.has_guessed = true
      · simp [handle, handleCheckWord, hget, hst, SessionInfo.increment_tries,
          hmod, h5, hw, GameSessionEvent.game_over]
      · simp only [Bool.not_eq_true] at hw
        simp [handle, handleCheckWord, hget, hst, SessionInfo.increment_tries,
          hmod, h5, hw]
  · intro ctx word si outcome hsi hst
    have hget : gs.getSession ctx.source = si := getSession_eq_of_some _ _ _ hsi
    simp [handle, handleCheckWord, hget, hst]

/-- Witness for C5: the state reached by one concrete `StartGame` step
from the initial state has a session with `tries = 0 ≤ 5`. -/
theorem tries_never_exceed_limit_witness :
    SessionInfo.tries ⟨100, 100, 101, 0, .InProgress⟩ ≤ 5 :=
  (tries_never_exceed_limit (fun _ => false) 1 _
      (Reachable.handle_step ⟨7, 100, 1, 101⟩ .StartGame Reachable.start
        (rfl : handle (fun _ => false) ⟨7, 100, 1, 101⟩ .StartGame (initState 1) =
          .ok ⟨(initState 1).setSession 7 ⟨100, 100, 101, 0, .InProgress⟩,
               [.sendWordle 1 (.StartGame 7),
                .sendDelayedSelf 1 (.CheckGameStatus 7 100) 200], true⟩))).1
    7 ⟨100, 100, 101, 0, .InProgress⟩ rfl
